import Mathlib

/-!
Verification of the kitealogo trading-zone core against its specification.

The development shallowly embeds the three core components:
* `DateManager` (src/core/date_manager.py): trading-calendar arithmetic,
  dates are `(year, month, day)` triples, weekday via Sakamoto's method
  (matching Python's `datetime.weekday` convention, Monday = 0).
* `ZoneDetector` (src/core/zone_detector.py): ATR, impulse scan, origin
  zone search, validation, `extract_zones`.
* `ExecuteDayMonitor` (src/core/execute_day.py): proximity classifier and
  alert filter.

Prices are embedded as rationals (`ℚ`); Python float division by zero has
no counterpart here (rational division totalizes with `x / 0 = 0`).
-/

/-- A calendar date, as produced by `datetime.strptime(s, "%Y-%m-%d")`
(midnight-normalized datetimes compare as their date triples). -/
structure Date where
  year : Nat
  month : Nat
  day : Nat
deriving DecidableEq, Repr

/-- Gregorian leap-year rule, as implemented by Python's `datetime`. -/
def isLeap (y : Nat) : Bool :=
  (y % 4 == 0 && y % 100 != 0) || y % 400 == 0

/-- Number of days in a month of a given year. -/
def daysInMonth (y m : Nat) : Nat :=
  if m = 2 then (if isLeap y then 29 else 28)
  else if m = 4 ∨ m = 6 ∨ m = 9 ∨ m = 11 then 30
  else 31

/-- `date - timedelta(days=1)` on the triple representation. -/
def subOneDay (d : Date) : Date :=
  if 2 ≤ d.day then ⟨d.year, d.month, d.day - 1⟩
  else if 2 ≤ d.month then ⟨d.year, d.month - 1, daysInMonth d.year (d.month - 1)⟩
  else ⟨d.year - 1, 12, 31⟩

/-- Day of week by Sakamoto's method, with Python's `datetime.weekday`
convention: Monday = 0, ..., Sunday = 6. -/
def pyWeekday (d : Date) : Nat :=
  let t : List Nat := [0, 3, 2, 5, 0, 3, 5, 1, 4, 6, 2, 4]
  let y := if d.month < 3 then d.year - 1 else d.year
  (y + y / 4 + y / 100 * 6 + y / 400 + t.getD (d.month - 1) 0 + d.day + 6) % 7

/-- Character for a decimal digit `n < 10`. -/
def digChar (n : Nat) : Char := Char.ofNat (48 + n % 10)

/-- `strftime("%Y-%m-%d")`: zero-padded `YYYY-MM-DD` rendering. -/
def formatYMD (d : Date) : String :=
  String.mk [digChar (d.year / 1000), digChar (d.year / 100), digChar (d.year / 10),
    digChar d.year, '-', digChar (d.month / 10), digChar d.month, '-',
    digChar (d.day / 10), digChar d.day]

/-- Numeric value of a digit character. -/
def digVal (c : Char) : Nat := c.toNat - 48

/-- Whether a character is a decimal digit. -/
def isDig (c : Char) : Bool := 48 ≤ c.toNat && c.toNat ≤ 57

/-- `datetime.strptime(s, "%Y-%m-%d")` as a partial function: accepts a
ten-character zero-padded `YYYY-MM-DD` string denoting a valid calendar
date (Python's `datetime` requires `year ≥ 1`); yields `none` where the
Python call raises `ValueError`. -/
def parseYMD (s : String) : Option Date :=
  match s.toList with
  | [y1, y2, y3, y4, s1, m1, m2, s2, d1, d2] =>
    if s1 = '-' ∧ s2 = '-' ∧ isDig y1 ∧ isDig y2 ∧ isDig y3 ∧ isDig y4 ∧
        isDig m1 ∧ isDig m2 ∧ isDig d1 ∧ isDig d2 then
      let y := digVal y1 * 1000 + digVal y2 * 100 + digVal y3 * 10 + digVal y4
      let m := digVal m1 * 10 + digVal m2
      let dd := digVal d1 * 10 + digVal d2
      if 1 ≤ y ∧ 1 ≤ m ∧ m ≤ 12 ∧ 1 ≤ dd ∧ dd ≤ daysInMonth y m then
        some ⟨y, m, dd⟩
      else none
    else none
  | _ => none

/-- The `NSE_HOLIDAYS_2026` table of `DateManager`. -/
def NSE_HOLIDAYS_2026 : List String :=
  ["2026-01-26", "2026-03-03", "2026-03-30", "2026-04-02", "2026-04-03",
   "2026-04-14", "2026-05-01", "2026-08-15", "2026-08-19", "2026-10-02",
   "2026-10-20", "2026-11-04", "2026-11-05", "2026-11-25", "2026-12-25"]

/-- `DateManager.is_trading_day`: false on weekends (`weekday ≥ 5`) and on
configured NSE holidays. -/
def is_trading_day (d : Date) : Bool :=
  if 5 ≤ pyWeekday d then false
  else if NSE_HOLIDAYS_2026.contains (formatYMD d) then false
  else true

/-- The bounded lookback loop inside `DateManager.get_previous_trading_day`:
`orig` is the original argument (used by the degenerate fallback), `fuel`
the remaining iterations of `range(10)`. -/
def prevTradingAux (orig : Date) : Nat → Date → Date
  | 0, _ => subOneDay orig
  | fuel + 1, cur => if is_trading_day cur then cur else prevTradingAux orig fuel (subOneDay cur)

/-- `DateManager.get_previous_trading_day`. -/
def get_previous_trading_day (d : Date) : Date :=
  prevTradingAux d 10 (subOneDay d)

/-- `DateManager.calculate_fetch_day`: parse, walk back two trading days,
re-format. `none` models the `ValueError` the Python code raises on
unparseable input. -/
def calculate_fetch_day (execute_day : String) : Option String :=
  match parseYMD execute_day with
  | none => none
  | some dt =>
    some (formatYMD (get_previous_trading_day (get_previous_trading_day dt)))

/-- Strict `datetime` order on midnight-normalized dates. -/
def dateLt (a b : Date) : Bool :=
  a.year < b.year ∨ (a.year = b.year ∧ (a.month < b.month ∨
    (a.month = b.month ∧ a.day < b.day)))

/-- `DateManager.validate_execute_day`, with `today` (already normalized to
midnight) passed explicitly in place of `datetime.now()`. Returns the
`(is_valid, fetch_day, error_message)` triple; both `strptime` calls sit
inside the same `try`, so either parse failure lands in the
`ValueError` branch. -/
def validate_execute_day (today : Date) (execute_day : String) :
    Bool × Option String × Option String :=
  match parseYMD execute_day with
  | none => (false, none, some "Invalid date format")
  | some dt =>
    let fetch_day := formatYMD (get_previous_trading_day (get_previous_trading_day dt))
    match parseYMD fetch_day with
    | none => (false, none, some "Invalid date format")
    | some fetch_dt =>
      if dateLt today fetch_dt then
        (false, none,
          some ("Fetch Day (" ++ fetch_day ++ ") is in the future. No historical data available."))
      else (true, some fetch_day, none)

/-- `Config.NEAR_ZONE_PERCENT` (src/config.py). -/
def NEAR_ZONE_PERCENT : ℚ := 1 / 2

/-- `self.near_threshold` as set in `ExecuteDayMonitor.__init__`:
`Config.NEAR_ZONE_PERCENT / 100.0`. -/
def near_threshold : ℚ := NEAR_ZONE_PERCENT / 100

/-- `self.far_threshold` as set in `ExecuteDayMonitor.__init__`: `1.5`. -/
def far_threshold : ℚ := 3 / 2

/-- The fields of a stored zone read by the proximity classifier
(`zone['zone_low']`, `zone['zone_high']`, `zone['zone_type']`). -/
structure Zone where
  zone_low : ℚ
  zone_high : ℚ
  zone_type : String
deriving DecidableEq, Repr

/-- Midpoint `(zone_low + zone_high) / 2` of a zone. -/
def zoneMid (z : Zone) : ℚ := (z.zone_low + z.zone_high) / 2

/-- Signed percentage distance `((ltp - zone_mid) / zone_mid) * 100`. -/
def distFromMid (ltp : ℚ) (z : Zone) : ℚ :=
  (ltp - zoneMid z) / zoneMid z * 100

/-- The `for zone in zones` loop of `ExecuteDayMonitor._calculate_proximity`.
The accumulators mirror the Python locals: `m` is `min_distance_pct`
(`none` standing for the initial `float('inf')`), `c` is `closest_zone`,
`st` / `re` the running `status` / `reaction`. An early `return` on a
containing zone short-circuits the recursion. -/
def proxLoop (ltp : ℚ) : List Zone → Option ℚ → Option Zone → String → String →
    String × Option Zone × Option ℚ × String
  | [], m, c, st, re => (st, c, m, re)
  | z :: rest, m, c, st, re =>
    let dist := distFromMid ltp z
    if z.zone_low ≤ ltp ∧ ltp ≤ z.zone_high then
      ((if z.zone_type = "BULLISH" then "INSIDE_BULLISH" else "INSIDE_BEARISH"),
        some z, some dist, "Holding")
    else
      if (match m with | none => true | some mv => decide (|dist| < |mv|)) then
        if |dist| ≤ near_threshold then
          proxLoop ltp rest (some dist) (some z) "NEAR" "First Touch"
        else if far_threshold < |dist| then
          proxLoop ltp rest (some dist) (some z) "FAR" "No Touch Yet"
        else
          proxLoop ltp rest (some dist) (some z) "NEAR" "No Touch Yet"
      else proxLoop ltp rest m c st re

/-- `ExecuteDayMonitor._calculate_proximity` returning
`(status, closest_zone, distance_percent, reaction)`; the distance slot is
`none` exactly where Python would carry `float('inf')` (never reached when
`zones` is non-empty, see `proxLoop`). -/
def calculate_proximity (ltp : ℚ) (zones : List Zone) :
    String × Option Zone × Option ℚ × String :=
  if zones = [] then ("FAR", none, some 100, "No Touch Yet")
  else proxLoop ltp zones none none "FAR" "No Touch Yet"

/-- The fields of a monitoring record read by `get_alerts`
(plus `symbol` and `ltp` for record identity). -/
structure MonitoringRecord where
  symbol : String
  ltp : ℚ
  status : String
  reaction : String
deriving DecidableEq, Repr

/-- `ExecuteDayMonitor.get_alerts`: keep records whose status is one of
`INSIDE_BULLISH`, `INSIDE_BEARISH`, `NEAR` and whose reaction is
`First Touch` or `Holding`, in input order. -/
def get_alerts : List MonitoringRecord → List MonitoringRecord
  | [] => []
  | d :: rest =>
    if d.status = "INSIDE_BULLISH" ∨ d.status = "INSIDE_BEARISH" ∨ d.status = "NEAR" then
      if d.reaction = "First Touch" ∨ d.reaction = "Holding" then
        d :: get_alerts rest
      else get_alerts rest
    else get_alerts rest

/-- The fields of a candle row read by `ZoneDetector`
(`date`, `high`, `low`, `close`). -/
structure Candle where
  date : String
  high : ℚ
  low : ℚ
  close : ℚ
deriving DecidableEq, Repr

/-- Out-of-range row default (never reached on in-range indices). -/
def cdef : Candle := ⟨"", 0, 0, 0⟩

/-- `df.loc[i, 'close']`. -/
def cl (df : List Candle) (i : Nat) : ℚ := (df.getD i cdef).close

/-- Minimum of a list of rationals (pandas `.min()` on a non-empty column). -/
def listMin (l : List ℚ) : ℚ := l.foldr min (l.headD 0)

/-- Maximum of a list of rationals (pandas `.max()` on a non-empty column). -/
def listMax (l : List ℚ) : ℚ := l.foldr max (l.headD 0)

/-- Sum of a list of rationals. -/
def listSum (l : List ℚ) : ℚ := l.foldr (· + ·) 0

/-- pandas `.mean()`: sum divided by length. -/
def listMean (l : List ℚ) : ℚ := listSum l / (l.length : ℚ)

/-- The inclusive label slice `df.loc[i:j]`. -/
def sliceIncl (df : List Candle) (i j : Nat) : List Candle :=
  (df.drop i).take (j + 1 - i)

/-- True range of row `i`: for row 0 the `shift()`-induced `NaN`s make
`ranges.max(axis=1)` return `high - low`; afterwards the max of
`high - low`, `|high - prevClose|`, `|low - prevClose|`. -/
def trueRange (df : List Candle) (i : Nat) : ℚ :=
  let c := df.getD i cdef
  if i = 0 then c.high - c.low
  else
    let pc := cl df (i - 1)
    max (c.high - c.low) (max |c.high - pc| |c.low - pc|)

/-- `ZoneDetector.calculate_atr` (period 14): the last 14-window rolling
mean of true range; when the series is shorter than 14 that mean is `NaN`
and the code falls back to `mean(high) - mean(low)`. -/
def calculate_atr (df : List Candle) : ℚ :=
  if df.length < 14 then
    listMean (df.map Candle.high) - listMean (df.map Candle.low)
  else
    listMean ((List.range' (df.length - 14) 14).map (trueRange df))

/-- Result record of `ZoneDetector.find_major_impulse`. -/
structure Impulse where
  direction : String
  start_idx : Nat
  end_idx : Nat
  strength : String
  start_time : String
  end_time : String
deriving DecidableEq, Repr

/-- The index pairs `(i, j)` visited by the nested scan
`for i in range(len(df) - 3): for j in range(i + 3, min(i + 20, len(df)))`,
in scan order. -/
def scanPairs (n : Nat) : List (Nat × Nat) :=
  (List.range (n - 3)).flatMap fun i =>
    (List.range' (i + 3) (min (i + 20) n - (i + 3))).map fun j => (i, j)

/-- `net_move = abs(price_end - price_start)` for a pair. -/
def netMove (df : List Candle) (p : Nat × Nat) : ℚ :=
  |cl df p.2 - cl df p.1|

/-- The pullback of a pair: against the range minimum low for a bullish
candidate (`close[j] > close[i]`), against the range maximum high
otherwise. -/
def pullback (df : List Candle) (p : Nat × Nat) : ℚ :=
  if cl df p.1 < cl df p.2 then
    cl df p.1 - listMin ((sliceIncl df p.1 p.2).map Candle.low)
  else
    listMax ((sliceIncl df p.1 p.2).map Candle.high) - cl df p.1

/-- A pair survives the scan filters: net move at least
`atr_multiplier * atr` and pullback at most `0.3 *` net move. -/
def survives (mult atr : ℚ) (df : List Candle) (p : Nat × Nat) : Bool :=
  !decide (netMove df p < mult * atr) &&
    !decide (netMove df p * (3 / 10) < pullback df p)

/-- The impulse record built for a retained pair. -/
def mkImp (df : List Candle) (atr : ℚ) (p : Nat × Nat) : Impulse :=
  ⟨if cl df p.1 < cl df p.2 then "BULLISH" else "BEARISH",
   p.1, p.2,
   if 2 * atr < netMove df p then "HIGH" else "MEDIUM",
   (df.getD p.1 cdef).date, (df.getD p.2 cdef).date⟩

/-- One iteration of the scan body: the accumulator carries
`(best_impulse, max_move)`. -/
def impStep (mult atr : ℚ) (df : List Candle) (acc : Option Impulse × ℚ)
    (p : Nat × Nat) : Option Impulse × ℚ :=
  if survives mult atr df p && decide (acc.2 < netMove df p) then
    (some (mkImp df atr p), netMove df p)
  else acc

/-- `ZoneDetector.find_major_impulse` with `atr_multiplier = mult`:
`best_impulse = None`, `max_move = 0`, then the nested scan. -/
def find_major_impulse (mult : ℚ) (df : List Candle) (atr : ℚ) : Option Impulse :=
  ((scanPairs df.length).foldl (impStep mult atr df) (none, 0)).1

/-- Result record of `ZoneDetector.find_origin_zone`. -/
structure OriginZone where
  zone_low : ℚ
  zone_high : ℚ
  candle_count : Nat
deriving DecidableEq, Repr

/-- The window `df.iloc[k - lb : k]` inspected for lookback `lb` before
impulse start `k`. -/
def originWindow (df : List Candle) (k lb : Nat) : List Candle :=
  (df.drop (k - lb)).take lb

/-- The compression and balance tests of the `find_origin_zone` loop body:
window range `< 2.5 *` mean candle range, and `|close[last] - close[first]|`
`< 0.5 *` window range. -/
def originPred (df : List Candle) (k lb : Nat) : Bool :=
  let w := originWindow df k lb
  let zone_low := listMin (w.map Candle.low)
  let zone_high := listMax (w.map Candle.high)
  let zone_range := zone_high - zone_low
  let avg := listMean (w.map fun c => c.high - c.low)
  decide (zone_range < avg * (5 / 2)) &&
    decide (|(w.getLastD cdef).close - (w.headD cdef).close| < zone_range * (1 / 2))

/-- The zone built for a qualifying lookback. -/
def mkOrigin (df : List Candle) (k lb : Nat) : OriginZone :=
  ⟨listMin ((originWindow df k lb).map Candle.low),
   listMax ((originWindow df k lb).map Candle.high), lb⟩

/-- `ZoneDetector.find_origin_zone` with bounds `minC`/`maxC`
(`zone_candles_min` / `zone_candles_max`): `None` when the impulse start
`k` is below `minC`, else the first qualifying lookback in
`range(minC, min(maxC + 1, k + 1))`. -/
def find_origin_zone (minC maxC : Nat) (df : List Candle) (k : Nat) : Option OriginZone :=
  if k < minC then none
  else ((List.range' minC (min (maxC + 1) (k + 1) - minC)).find? (originPred df k)).map
    (mkOrigin df k)

/-- `ZoneDetector.validate_zone`: the close of the impulse end candle must
sit at least `2 *` the zone range away from the zone midpoint. -/
def validate_zone (df : List Candle) (zone : OriginZone) (imp : Impulse) : Bool :=
  if df.length ≤ imp.end_idx then false
  else
    let price_after_impulse := cl df imp.end_idx
    let zone_mid := (zone.zone_low + zone.zone_high) / 2
    let distance := |price_after_impulse - zone_mid|
    let zone_range := zone.zone_high - zone.zone_low
    if distance < zone_range * 2 then false else true

/-- The zone dictionary assembled at the end of `extract_zones`. -/
structure ZoneRecord where
  symbol : String
  fetch_date : String
  timeframe : String
  zone_type : String
  zone_low : ℚ
  zone_high : ℚ
  impulse_strength : String
  impulse_start_time : String
  impulse_end_time : String
deriving DecidableEq, Repr

/-- The record `extract_zones` appends for a validated zone. -/
def mkZoneRecord (symbol fetch_date timeframe : String) (imp : Impulse)
    (oz : OriginZone) : ZoneRecord :=
  ⟨symbol, fetch_date, timeframe, imp.direction, oz.zone_low, oz.zone_high,
   imp.strength, imp.start_time, imp.end_time⟩

/-- `ZoneDetector.extract_zones` under the configuration used by
`FetchDayProcessor` (`atr_multiplier = 1.5`, `zone_candles_min = 2`,
`zone_candles_max = 6`): at most one zone; every missing-signal branch
returns the empty list. -/
def extract_zones (df : List Candle) (symbol fetch_date timeframe : String) :
    List ZoneRecord :=
  if df.length < 20 then []
  else
    let atr := calculate_atr df
    match find_major_impulse (3 / 2) df atr with
    | none => []
    | some imp =>
      match find_origin_zone 2 6 df imp.start_idx with
      | none => []
      | some oz =>
        if validate_zone df oz imp then [mkZoneRecord symbol fetch_date timeframe imp oz]
        else []

/-! ### Specification-side definitions

The following definitions transcribe the specification's wording (not the
code) for the refinement-style claims; the theorems below compare them
with the source embeddings above. -/

/-- Spec, impulse search: the surviving candidate pairs, in scan order. -/
def specSurvivors (mult atr : ℚ) (df : List Candle) : List (Nat × Nat) :=
  (scanPairs df.length).filter (survives mult atr df)

/-- Spec, impulse search: the largest net displacement among a candidate
list (`0` for the empty list). -/
def specMaxNet (df : List Candle) (l : List (Nat × Nat)) : ℚ :=
  l.foldr (fun p m => max (netMove df p) m) 0

/-- Spec, impulse search: "among all surviving candidates, keep the one
with the strictly largest net displacement; on an exact tie, the
first-encountered candidate in scan order is retained". -/
def specBestImpulse (mult atr : ℚ) (df : List Candle) : Option Impulse :=
  ((specSurvivors mult atr df).find?
      (fun p => decide (netMove df p = specMaxNet df (specSurvivors mult atr df)))).map
    (mkImp df atr)

/-- Spec, step 4 validation as the specification words it: "the candle
immediately following impulse end has a close at least 2x the candidate
zone's range away from the candidate zone's midpoint". -/
def specFollowValidation (df : List Candle) (imp : Impulse) (oz : OriginZone) : Prop :=
  (oz.zone_high - oz.zone_low) * 2 ≤
    |cl df (imp.end_idx + 1) - (oz.zone_low + oz.zone_high) / 2|

/-! ### Concrete series used as witnesses and counterexamples -/

/-- A 20-candle series: a balanced range at indices 1-2, a bullish impulse
from index 3 to index 6, and a full retrace candle at index 7 whose close
returns to the origin midpoint. -/
def dfC2 : List Candle :=
  [⟨"t0", 105, 103, 104⟩, ⟨"t1", 105, 103, 104⟩, ⟨"t2", 105, 103, 104⟩,
   ⟨"t3", 105, 99, 100⟩, ⟨"t4", 112, 100, 110⟩, ⟨"t5", 122, 110, 120⟩,
   ⟨"t6", 131, 120, 130⟩, ⟨"t7", 131, 103, 104⟩, ⟨"t8", 131, 129, 130⟩,
   ⟨"t9", 131, 129, 130⟩, ⟨"t10", 131, 129, 130⟩, ⟨"t11", 131, 129, 130⟩,
   ⟨"t12", 131, 129, 130⟩, ⟨"t13", 131, 129, 130⟩, ⟨"t14", 131, 129, 130⟩,
   ⟨"t15", 131, 129, 130⟩, ⟨"t16", 131, 129, 130⟩, ⟨"t17", 131, 129, 130⟩,
   ⟨"t18", 131, 129, 130⟩, ⟨"t19", 131, 129, 130⟩]

/-- The impulse `find_major_impulse` finds on `dfC2`. -/
def impC2 : Impulse := ⟨"BULLISH", 3, 6, "HIGH", "t3", "t6"⟩

/-- The origin zone `find_origin_zone` finds on `dfC2` at start index 3. -/
def ozC2 : OriginZone := ⟨103, 105, 2⟩

/-- Four degenerate candles with all prices equal. -/
def constDf : List Candle :=
  [⟨"c0", 100, 100, 100⟩, ⟨"c1", 100, 100, 100⟩,
   ⟨"c2", 100, 100, 100⟩, ⟨"c3", 100, 100, 100⟩]

/-- A four-candle series with a clean bullish impulse over the whole range. -/
def dfW : List Candle :=
  [⟨"w0", 101, 99, 100⟩, ⟨"w1", 106, 100, 105⟩,
   ⟨"w2", 111, 105, 110⟩, ⟨"w3", 116, 110, 115⟩]

/-- 20 identical candles: every scan pair has zero net displacement, so no
impulse qualifies. -/
def flatDf : List Candle :=
  List.replicate 20 ⟨"f", 101, 99, 100⟩

/-- A 20-candle series whose dominant impulse starts at index 0, leaving
no room for an origin-zone lookback. -/
def dfC8c : List Candle :=
  [⟨"b0", 101, 99, 100⟩, ⟨"b1", 111, 100, 110⟩, ⟨"b2", 121, 110, 120⟩,
   ⟨"b3", 131, 120, 130⟩, ⟨"b4", 131, 129, 130⟩, ⟨"b5", 131, 129, 130⟩,
   ⟨"b6", 131, 129, 130⟩, ⟨"b7", 131, 129, 130⟩, ⟨"b8", 131, 129, 130⟩,
   ⟨"b9", 131, 129, 130⟩, ⟨"b10", 131, 129, 130⟩, ⟨"b11", 131, 129, 130⟩,
   ⟨"b12", 131, 129, 130⟩, ⟨"b13", 131, 129, 130⟩, ⟨"b14", 131, 129, 130⟩,
   ⟨"b15", 131, 129, 130⟩, ⟨"b16", 131, 129, 130⟩, ⟨"b17", 131, 129, 130⟩,
   ⟨"b18", 131, 129, 130⟩, ⟨"b19", 131, 129, 130⟩]

/-- The impulse `find_major_impulse` finds on `dfC8c`. -/
def impC8c : Impulse := ⟨"BULLISH", 0, 3, "HIGH", "b0", "b3"⟩

/-- A 20-candle series with a valid impulse and origin zone whose wide
origin range makes the post-impulse validation fail. -/
def dfC8d : List Candle :=
  [⟨"d0", 105, 103, 104⟩, ⟨"d1", 115, 95, 104⟩, ⟨"d2", 115, 95, 104⟩,
   ⟨"d3", 105, 99, 100⟩, ⟨"d4", 112, 100, 110⟩, ⟨"d5", 122, 110, 120⟩,
   ⟨"d6", 131, 120, 130⟩, ⟨"d7", 131, 129, 130⟩, ⟨"d8", 131, 129, 130⟩,
   ⟨"d9", 131, 129, 130⟩, ⟨"d10", 131, 129, 130⟩, ⟨"d11", 131, 129, 130⟩,
   ⟨"d12", 131, 129, 130⟩, ⟨"d13", 131, 129, 130⟩, ⟨"d14", 131, 129, 130⟩,
   ⟨"d15", 131, 129, 130⟩, ⟨"d16", 131, 129, 130⟩, ⟨"d17", 131, 129, 130⟩,
   ⟨"d18", 131, 129, 130⟩, ⟨"d19", 131, 129, 130⟩]

/-- The impulse `find_major_impulse` finds on `dfC8d`. -/
def impC8d : Impulse := ⟨"BULLISH", 3, 6, "HIGH", "d3", "d6"⟩

/-- The origin zone `find_origin_zone` finds on `dfC8d` at start index 3. -/
def ozC8d : OriginZone := ⟨95, 115, 2⟩

/-! ### Theorems -/

set_option maxRecDepth 8000

/-- C3: for every parseable `YYYY-MM-DD` string, `calculate_fetch_day` is
two successive applications of `get_previous_trading_day` to the parsed
Execute Day, formatted back; and `calculate_fetch_day "2026-01-30"`
(a Friday) is `"2026-01-28"` (the prior Wednesday) under the configured
2026 holiday set. -/
theorem calculate_fetch_day_two_steps :
    (∀ s dt, parseYMD s = some dt →
      calculate_fetch_day s =
        some (formatYMD (get_previous_trading_day (get_previous_trading_day dt)))) ∧
    calculate_fetch_day "2026-01-30" = some "2026-01-28" := by
  constructor
  · intro s dt h
    simp [calculate_fetch_day, h]
  · decide

/-- Witness for `calculate_fetch_day_two_steps` at the concrete input
`"2026-01-30"`. -/
theorem calculate_fetch_day_two_steps_witness :
    calculate_fetch_day "2026-01-30" =
      some (formatYMD (get_previous_trading_day (get_previous_trading_day ⟨2026, 1, 30⟩))) :=
  calculate_fetch_day_two_steps.1 "2026-01-30" ⟨2026, 1, 30⟩ (by decide)

/-- C1 (failing input): with the default configuration, for the single
zone `[709, 711]` (midpoint `710`) and `ltp = 706.5` the signed distance
is `-35/71 ≈ -0.493` percent, within the documented `0.5` percent
threshold (`NEAR_ZONE_PERCENT`), yet the classifier reports reaction
`"No Touch Yet"`, not `"First Touch"`: `near_threshold` is
`NEAR_ZONE_PERCENT / 100 = 0.005` but is compared against a distance that
is already a percentage. -/
theorem near_first_touch_threshold_unit_bug :
    calculate_proximity (1413 / 2) [⟨709, 711, "BULLISH"⟩] =
      ("NEAR", some ⟨709, 711, "BULLISH"⟩, some (-35 / 71), "No Touch Yet") ∧
    |distFromMid (1413 / 2) ⟨709, 711, "BULLISH"⟩| ≤ NEAR_ZONE_PERCENT := by
  constructor
  · with_unfolding_all decide
  · with_unfolding_all decide

/-- C7: `validate_execute_day` fails with a format error when the input
does not parse, fails with a "Fetch Day is in the future" error when the
computed Fetch Day is strictly later than today (midnight-normalized), and
otherwise succeeds with the Fetch Day and a null error. -/
theorem validate_execute_day_spec :
    (∀ today s, parseYMD s = none →
      validate_execute_day today s = (false, none, some "Invalid date format")) ∧
    (∀ today s dt fdt, parseYMD s = some dt →
      parseYMD (formatYMD (get_previous_trading_day (get_previous_trading_day dt))) =
        some fdt →
      dateLt today fdt = true →
      validate_execute_day today s =
        (false, none,
          some ("Fetch Day (" ++
            formatYMD (get_previous_trading_day (get_previous_trading_day dt)) ++
            ") is in the future. No historical data available."))) ∧
    (∀ today s dt fdt, parseYMD s = some dt →
      parseYMD (formatYMD (get_previous_trading_day (get_previous_trading_day dt))) =
        some fdt →
      dateLt today fdt = false →
      validate_execute_day today s =
        (true, some (formatYMD (get_previous_trading_day (get_previous_trading_day dt))),
          none)) := by
  refine ⟨?_, ?_, ?_⟩
  · intro today s h
    simp [validate_execute_day, h]
  · intro today s dt fdt h1 h2 h3
    simp [validate_execute_day, h1, h2, h3]
  · intro today s dt fdt h1 h2 h3
    simp [validate_execute_day, h1, h2, h3]

/-- Witness for `validate_execute_day_spec`: an unparseable input, a
future Fetch Day (today taken as 2020-01-01), and a past Fetch Day (today
taken as 2026-02-01). -/
theorem validate_execute_day_spec_witness :
    validate_execute_day ⟨2026, 2, 1⟩ "garbage" = (false, none, some "Invalid date format") ∧
    validate_execute_day ⟨2020, 1, 1⟩ "2026-01-30" =
      (false, none,
        some ("Fetch Day (" ++
          formatYMD (get_previous_trading_day (get_previous_trading_day ⟨2026, 1, 30⟩)) ++
          ") is in the future. No historical data available.")) ∧
    validate_execute_day ⟨2026, 2, 1⟩ "2026-01-30" =
      (true, some (formatYMD (get_previous_trading_day (get_previous_trading_day ⟨2026, 1, 30⟩))),
        none) :=
  ⟨validate_execute_day_spec.1 ⟨2026, 2, 1⟩ "garbage" (by decide),
   validate_execute_day_spec.2.1 ⟨2020, 1, 1⟩ "2026-01-30" ⟨2026, 1, 30⟩ ⟨2026, 1, 28⟩
     (by decide) (by decide) (by decide),
   validate_execute_day_spec.2.2 ⟨2026, 2, 1⟩ "2026-01-30" ⟨2026, 1, 30⟩ ⟨2026, 1, 28⟩
     (by decide) (by decide) (by decide)⟩

/-- C9: `get_alerts` is the order-preserving filter retaining exactly the
records whose status is one of `INSIDE_BULLISH`, `INSIDE_BEARISH`, `NEAR`
and whose reaction is `First Touch` or `Holding`; in particular no
retained record has status `FAR` or reaction `No Touch Yet`. -/
theorem get_alerts_filter_spec :
    (∀ l, get_alerts l = l.filter fun d =>
      decide ((d.status = "INSIDE_BULLISH" ∨ d.status = "INSIDE_BEARISH" ∨
          d.status = "NEAR") ∧
        (d.reaction = "First Touch" ∨ d.reaction = "Holding"))) ∧
    (∀ l d, d ∈ get_alerts l → d.status ≠ "FAR" ∧ d.reaction ≠ "No Touch Yet") := by
  have h1 : ∀ l, get_alerts l = l.filter fun d =>
      decide ((d.status = "INSIDE_BULLISH" ∨ d.status = "INSIDE_BEARISH" ∨
          d.status = "NEAR") ∧
        (d.reaction = "First Touch" ∨ d.reaction = "Holding")) := by
    intro l
    induction l with
    | nil => rfl
    | cons x xs ih =>
      by_cases hs : x.status = "INSIDE_BULLISH" ∨ x.status = "INSIDE_BEARISH" ∨
          x.status = "NEAR"
      · by_cases hr : x.reaction = "First Touch" ∨ x.reaction = "Holding"
        · simp [get_alerts, hs, hr, ih, List.filter_cons]
        · simp [get_alerts, hs, hr, ih, List.filter_cons]
      · simp [get_alerts, hs, ih, List.filter_cons]
  refine ⟨h1, ?_⟩
  intro l d hd
  rw [h1] at hd
  rcases List.mem_filter.mp hd with ⟨-, hp⟩
  rcases of_decide_eq_true hp with ⟨hs, hr⟩
  constructor
  · rcases hs with h | h | h <;> rw [h] <;> decide
  · rcases hr with h | h <;> rw [h] <;> decide

/-- Witness for `get_alerts_filter_spec` on a concrete record list. -/
theorem get_alerts_filter_spec_witness :
    (⟨"A", 1, "NEAR", "Holding"⟩ : MonitoringRecord).status ≠ "FAR" ∧
    (⟨"A", 1, "NEAR", "Holding"⟩ : MonitoringRecord).reaction ≠ "No Touch Yet" :=
  get_alerts_filter_spec.2 [⟨"A", 1, "NEAR", "Holding"⟩] ⟨"A", 1, "NEAR", "Holding"⟩
    (by decide)

/-- The proximity loop returns on the first containing zone, for every
accumulator state. -/
lemma proxLoop_finds_containing (ltp : ℚ) :
    ∀ (zs : List Zone) (z : Zone) (m : Option ℚ) (c : Option Zone) (st re : String),
      zs.find? (fun w => decide (w.zone_low ≤ ltp ∧ ltp ≤ w.zone_high)) = some z →
      proxLoop ltp zs m c st re =
        ((if z.zone_type = "BULLISH" then "INSIDE_BULLISH" else "INSIDE_BEARISH"),
          some z, some (distFromMid ltp z), "Holding") := by
  intro zs
  induction zs with
  | nil => intro z m c st re h; simp [List.find?] at h
  | cons x xs ih =>
    intro z m c st re h
    by_cases hx : x.zone_low ≤ ltp ∧ ltp ≤ x.zone_high
    · have hz : z = x := by
        rw [List.find?_cons_of_pos _ (by simpa using hx)] at h
        exact (Option.some_inj.mp h).symm
      subst hz
      simp [proxLoop, hx]
    · rw [List.find?_cons_of_neg _ (by simpa using hx)] at h
      show (if x.zone_low ≤ ltp ∧ ltp ≤ x.zone_high then _ else _) = _
      rw [if_neg hx]
      split
      · split
        · exact ih z _ _ _ _ h
        · split
          · exact ih z _ _ _ _ h
          · exact ih z _ _ _ _ h
      · exact ih z _ _ _ _ h

/-- C4: when some zone contains `ltp`, the classifier returns on the first
containing zone in the supplied order: status `INSIDE_BULLISH` for a
`BULLISH` zone and `INSIDE_BEARISH` otherwise, reaction `"Holding"`, that
zone as closest zone, and its signed percentage distance — regardless of
any later zone in the list. -/
theorem proximity_inside_first_zone (ltp : ℚ) (zones : List Zone) (z : Zone)
    (h : zones.find? (fun w => decide (w.zone_low ≤ ltp ∧ ltp ≤ w.zone_high)) = some z) :
    calculate_proximity ltp zones =
      ((if z.zone_type = "BULLISH" then "INSIDE_BULLISH" else "INSIDE_BEARISH"),
        some z, some (distFromMid ltp z), "Holding") := by
  have hne : zones ≠ [] := by
    rintro rfl
    simp [List.find?] at h
  unfold calculate_proximity
  rw [if_neg hne]
  exact proxLoop_finds_containing ltp zones z none none "FAR" "No Touch Yet" h

/-- Witness for `proximity_inside_first_zone`: the zone `[700, 720]`
(BULLISH) contains `ltp = 710`; a later, closer zone is ignored. -/
theorem proximity_inside_first_zone_witness :
    calculate_proximity 710 [⟨700, 720, "BULLISH"⟩, ⟨709, 711, "BEARISH"⟩] =
      ("INSIDE_BULLISH", some ⟨700, 720, "BULLISH"⟩,
        some (distFromMid 710 ⟨700, 720, "BULLISH"⟩), "Holding") := by
  have := proximity_inside_first_zone 710 [⟨700, 720, "BULLISH"⟩, ⟨709, 711, "BEARISH"⟩]
    ⟨700, 720, "BULLISH"⟩ (by decide)
  simpa using this

/-- Searching an ascending index range with an upper bound `s ≤ k` folded
into the predicate is the same as searching the truncated range. -/
lemma find_range_trunc (P : Nat → Bool) (k : Nat) :
    ∀ n a, (List.range' a n).find? (fun s => decide (s ≤ k) && P s) =
      (List.range' a (min n (k + 1 - a))).find? P := by
  intro n
  induction n with
  | zero => intro a; simp
  | succ n ih =>
    intro a
    by_cases hak : a ≤ k
    · have hm : min (n + 1) (k + 1 - a) = min n (k + 1 - (a + 1)) + 1 := by omega
      rw [hm, List.range'_succ a n 1, List.range'_succ a (min n (k + 1 - (a + 1))) 1]
      simp only [List.find?_cons]
      have : (decide (a ≤ k) && P a) = P a := by simp [hak]
      rw [this]
      cases P a with
      | true => rfl
      | false => exact ih (a + 1)
    · have hm : min (n + 1) (k + 1 - a) = 0 := by omega
      rw [hm]
      simp only [List.range'_zero, List.find?_nil]
      apply List.find?_eq_none.mpr
      intro x hx
      rcases List.mem_range'_1.mp hx with ⟨hax, -⟩
      simp [show ¬ x ≤ k by omega]

/-- C6: `find_origin_zone` returns nothing when the impulse start index is
below `zone_candles_min`; otherwise it is the first window size in
`zone_candles_min, ..., zone_candles_max` (in increasing order, among the
sizes that fit before the impulse start) whose window passes the
compression and balance tests, yielding that window's minimum low and
maximum high; empty if no size qualifies. -/
theorem find_origin_zone_first_window (minC maxC : Nat) (df : List Candle) (k : Nat) :
    (k < minC → find_origin_zone minC maxC df k = none) ∧
    (minC ≤ k → find_origin_zone minC maxC df k =
      ((List.range' minC (maxC + 1 - minC)).find?
          (fun s => decide (s ≤ k) && originPred df k s)).map (mkOrigin df k)) := by
  constructor
  · intro h
    simp [find_origin_zone, h]
  · intro h
    unfold find_origin_zone
    rw [if_neg (by omega)]
    rw [find_range_trunc (originPred df k) k (maxC + 1 - minC) minC]
    have : min (maxC + 1 - minC) (k + 1 - minC) = min (maxC + 1) (k + 1) - minC := by
      omega
    rw [this]

/-- Witness for `find_origin_zone_first_window` on `dfC2` with the default
bounds: start index 3 yields the lookback-2 window, start index 1 is below
`zone_candles_min = 2`. -/
theorem find_origin_zone_first_window_witness :
    find_origin_zone 2 6 dfC2 1 = none ∧
    find_origin_zone 2 6 dfC2 3 =
      ((List.range' 2 (6 + 1 - 2)).find?
          (fun s => decide (s ≤ 3) && originPred dfC2 3 s)).map (mkOrigin dfC2 3) :=
  ⟨(find_origin_zone_first_window 2 6 dfC2 1).1 (by decide),
   (find_origin_zone_first_window 2 6 dfC2 3).2 (by decide)⟩

/-- One scan step either keeps the accumulator or installs the current
surviving pair. -/
lemma impStep_eq_or (mult atr : ℚ) (df : List Candle) (acc : Option Impulse × ℚ)
    (p : Nat × Nat) :
    impStep mult atr df acc p = acc ∨
      (survives mult atr df p = true ∧
        impStep mult atr df acc p = (some (mkImp df atr p), netMove df p)) := by
  unfold impStep
  by_cases h : (survives mult atr df p && decide (acc.2 < netMove df p)) = true
  · right
    have h2 := h
    rw [Bool.and_eq_true] at h2
    exact ⟨h2.1, by rw [if_pos h]⟩
  · left
    rw [if_neg h]

/-- The scan fold either returns its initial accumulator or the record of
some surviving pair of the list. -/
lemma foldl_impStep_cases (mult atr : ℚ) (df : List Candle) :
    ∀ (l : List (Nat × Nat)) (acc : Option Impulse × ℚ),
      l.foldl (impStep mult atr df) acc = acc ∨
      ∃ p ∈ l, survives mult atr df p = true ∧
        l.foldl (impStep mult atr df) acc = (some (mkImp df atr p), netMove df p) := by
  intro l
  induction l with
  | nil => intro acc; left; rfl
  | cons p l ih =>
    intro acc
    rw [List.foldl_cons]
    rcases ih (impStep mult atr df acc p) with heq | ⟨q, hq, hsv, heq⟩
    · rw [heq]
      rcases impStep_eq_or mult atr df acc p with h | ⟨hsv, h⟩
      · left; exact h
      · right; exact ⟨p, List.mem_cons_self p l, hsv, h⟩
    · right; exact ⟨q, List.mem_cons_of_mem p hq, hsv, heq⟩

/-- Membership in the scan-pair list gives the index bounds of the nested
loops. -/
lemma scanPairs_mem {n : Nat} {p : Nat × Nat} (h : p ∈ scanPairs n) :
    p.1 + 3 ≤ p.2 ∧ p.2 < p.1 + 20 ∧ p.2 < n := by
  simp only [scanPairs, List.mem_flatMap, List.mem_map, List.mem_range,
    List.mem_range'_1] at h
  rcases h with ⟨i, hi, j, hj, rfl⟩
  simp only
  omega

/-- A surviving pair moved at least `atr_multiplier * atr`. -/
lemma survives_net (mult atr : ℚ) (df : List Candle) (p : Nat × Nat)
    (h : survives mult atr df p = true) : mult * atr ≤ netMove df p := by
  unfold survives at h
  rw [Bool.and_eq_true] at h
  have h1 := h.1
  rw [Bool.not_eq_true'] at h1
  exact le_of_not_lt (of_decide_eq_false h1)

/-- C10: every impulse returned by `find_major_impulse` has indices in the
scanned ranges (`start + 3 ≤ end ≤ start + 19`, `end` a valid index), net
displacement at least `atr_multiplier * atr`, direction `BULLISH` exactly
when the end close exceeds the start close, and strength `HIGH` or
`MEDIUM`. -/
theorem find_major_impulse_sound (mult atr : ℚ) (df : List Candle) (imp : Impulse)
    (h : find_major_impulse mult df atr = some imp) :
    0 ≤ imp.start_idx ∧ imp.start_idx + 3 ≤ imp.end_idx ∧
    imp.end_idx ≤ imp.start_idx + 19 ∧ imp.end_idx < df.length ∧
    mult * atr ≤ |cl df imp.end_idx - cl df imp.start_idx| ∧
    (imp.direction =
      if cl df imp.start_idx < cl df imp.end_idx then "BULLISH" else "BEARISH") ∧
    (imp.strength = "HIGH" ∨ imp.strength = "MEDIUM") := by
  unfold find_major_impulse at h
  rcases foldl_impStep_cases mult atr df (scanPairs df.length) (none, 0) with
    heq | ⟨p, hmem, hsv, heq⟩
  · rw [heq] at h
    simp at h
  · rw [heq] at h
    have himp : imp = mkImp df atr p := by
      simpa using h.symm
    subst himp
    rcases scanPairs_mem hmem with ⟨h1, h2, h3⟩
    have hnet := survives_net mult atr df p hsv
    refine ⟨Nat.zero_le _, by simpa [mkImp] using h1, by simpa [mkImp] using by omega,
      by simpa [mkImp] using h3, ?_, ?_, ?_⟩
    · simpa [mkImp, netMove] using hnet
    · simp [mkImp]
    · by_cases h2a : 2 * atr < netMove df p
      · left; simp [mkImp, h2a]
      · right; simp [mkImp, h2a]

/-- Witness for `find_major_impulse_sound` on the four-candle series `dfW`
with `atr = 1`. -/
theorem find_major_impulse_sound_witness :
    0 ≤ (⟨"BULLISH", 0, 3, "HIGH", "w0", "w3"⟩ : Impulse).start_idx ∧
    (⟨"BULLISH", 0, 3, "HIGH", "w0", "w3"⟩ : Impulse).start_idx + 3 ≤
      (⟨"BULLISH", 0, 3, "HIGH", "w0", "w3"⟩ : Impulse).end_idx ∧
    (⟨"BULLISH", 0, 3, "HIGH", "w0", "w3"⟩ : Impulse).end_idx ≤
      (⟨"BULLISH", 0, 3, "HIGH", "w0", "w3"⟩ : Impulse).start_idx + 19 ∧
    (⟨"BULLISH", 0, 3, "HIGH", "w0", "w3"⟩ : Impulse).end_idx < dfW.length ∧
    (3 / 2 : ℚ) * 1 ≤
      |cl dfW (⟨"BULLISH", 0, 3, "HIGH", "w0", "w3"⟩ : Impulse).end_idx -
        cl dfW (⟨"BULLISH", 0, 3, "HIGH", "w0", "w3"⟩ : Impulse).start_idx| ∧
    ((⟨"BULLISH", 0, 3, "HIGH", "w0", "w3"⟩ : Impulse).direction =
      if cl dfW (⟨"BULLISH", 0, 3, "HIGH", "w0", "w3"⟩ : Impulse).start_idx <
          cl dfW (⟨"BULLISH", 0, 3, "HIGH", "w0", "w3"⟩ : Impulse).end_idx
        then "BULLISH" else "BEARISH") ∧
    ((⟨"BULLISH", 0, 3, "HIGH", "w0", "w3"⟩ : Impulse).strength = "HIGH" ∨
      (⟨"BULLISH", 0, 3, "HIGH", "w0", "w3"⟩ : Impulse).strength = "MEDIUM") :=
  find_major_impulse_sound (3 / 2) 1 dfW ⟨"BULLISH", 0, 3, "HIGH", "w0", "w3"⟩
    (by with_unfolding_all decide)

/-- `specMaxNet` unfolds on a cons cell. -/
lemma specMaxNet_cons (df : List Candle) (p : Nat × Nat) (l : List (Nat × Nat)) :
    specMaxNet df (p :: l) = max (netMove df p) (specMaxNet df l) := rfl

/-- The running maximum of net moves is non-negative. -/
lemma specMaxNet_nonneg (df : List Candle) : ∀ l, 0 ≤ specMaxNet df l := by
  intro l
  induction l with
  | nil => exact le_refl 0
  | cons p l ih => exact le_trans ih (by rw [specMaxNet_cons]; exact le_max_right _ _)

/-- Every listed pair's net move is bounded by the maximum. -/
lemma le_specMaxNet (df : List Candle) :
    ∀ {l : List (Nat × Nat)} {p : Nat × Nat}, p ∈ l → netMove df p ≤ specMaxNet df l := by
  intro l
  induction l with
  | nil => intro p h; cases h
  | cons q l ih =>
    intro p h
    rw [specMaxNet_cons]
    rcases List.mem_cons.mp h with rfl | h
    · exact le_max_left _ _
    · exact le_trans (ih h) (le_max_right _ _)

/-- A positive maximum net move is attained by the first pair reaching it. -/
lemma specMaxNet_attained (df : List Candle) :
    ∀ l, 0 < specMaxNet df l →
      ∃ q, l.find? (fun p => decide (netMove df p = specMaxNet df l)) = some q ∧
        netMove df q = specMaxNet df l := by
  intro l
  induction l with
  | nil => intro h; exact absurd h (by simp [specMaxNet])
  | cons r l ih =>
    intro h
    by_cases hr : netMove df r = specMaxNet df (r :: l)
    · exact ⟨r, List.find?_cons_of_pos _ (by simpa using hr), hr⟩
    · have hSl : specMaxNet df (r :: l) = specMaxNet df l := by
        rw [specMaxNet_cons] at hr ⊢
        rcases max_choice (netMove df r) (specMaxNet df l) with hc | hc
        · exact absurd hc.symm hr
        · exact hc
      rw [List.find?_cons_of_neg _ (by simpa using hr)]
      simp only [hSl] at h ⊢
      exact ih h

/-- Splitting a conjunction of boolean tests into a filter before the
search. -/
lemma find?_and_filter {α : Type} (P Q : α → Bool) :
    ∀ l : List α, l.find? (fun x => P x && Q x) = (l.filter P).find? Q := by
  intro l
  induction l with
  | nil => rfl
  | cons x l ih =>
    by_cases hP : P x = true
    · by_cases hQ : Q x = true
      · rw [List.find?_cons_of_pos _ (by simp [hP, hQ]), List.filter_cons_of_pos hP,
          List.find?_cons_of_pos _ hQ]
      · rw [List.find?_cons_of_neg _ (by simp [hP, hQ]), List.filter_cons_of_pos hP,
          List.find?_cons_of_neg _ (by simpa using hQ), ih]
    · rw [List.find?_cons_of_neg _ (by simp [hP]),
        List.filter_cons_of_neg (by simpa using hP), ih]

/-- Characterization of the impulse scan fold: starting from a
non-negative running maximum `m`, the fold either finds a surviving pair
whose net move is the (then strictly larger) maximum — the first such pair
in scan order — or leaves the accumulator unchanged. -/
lemma foldl_impStep_char (mult atr : ℚ) (df : List Candle) :
    ∀ (l : List (Nat × Nat)) (b : Option Impulse) (m : ℚ), 0 ≤ m →
      l.foldl (impStep mult atr df) (b, m) =
        if m < specMaxNet df (l.filter (survives mult atr df)) then
          match l.find? (fun p => survives mult atr df p &&
              decide (netMove df p = specMaxNet df (l.filter (survives mult atr df)))) with
          | some q => (some (mkImp df atr q), netMove df q)
          | none => (b, m)
        else (b, m) := by
  intro l
  induction l with
  | nil =>
    intro b m hm
    rw [if_neg (by simpa [specMaxNet] using hm)]
    rfl
  | cons p l ih =>
    intro b m hm
    rw [List.foldl_cons]
    by_cases hsv : survives mult atr df p = true
    · have hS : specMaxNet df ((p :: l).filter (survives mult atr df)) =
          max (netMove df p) (specMaxNet df (l.filter (survives mult atr df))) := by
        rw [List.filter_cons_of_pos hsv, specMaxNet_cons]
      by_cases hm2 : m < netMove df p
      · have hstep : impStep mult atr df (b, m) p =
            (some (mkImp df atr p), netMove df p) := by
          simp [impStep, hsv, hm2]
        rw [hstep, ih (some (mkImp df atr p)) (netMove df p) (abs_nonneg _)]
        by_cases hlt : netMove df p < specMaxNet df (l.filter (survives mult atr df))
        · have hSS : specMaxNet df ((p :: l).filter (survives mult atr df)) =
              specMaxNet df (l.filter (survives mult atr df)) := by
            rw [hS]; exact max_eq_right (le_of_lt hlt)
          have hposS : 0 < specMaxNet df (l.filter (survives mult atr df)) :=
            lt_of_le_of_lt (le_trans hm (le_of_lt hm2)) hlt
          have hne : ¬ (netMove df p =
              specMaxNet df ((p :: l).filter (survives mult atr df))) := by
            rw [hSS]; exact ne_of_lt hlt
          rw [if_pos hlt, if_pos (by rw [hSS]; exact lt_trans hm2 hlt),
            List.find?_cons_of_neg _ (by simp [hne]), hSS]
          rw [find?_and_filter (survives mult atr df)
            (fun p => decide (netMove df p = specMaxNet df (l.filter (survives mult atr df))))]
          rcases specMaxNet_attained df (l.filter (survives mult atr df)) hposS with
            ⟨q, hq, hqv⟩
          rw [hq]
        · have hSS : specMaxNet df ((p :: l).filter (survives mult atr df)) =
              netMove df p := by
            rw [hS]; exact max_eq_left (le_of_not_lt hlt)
          rw [if_neg hlt, if_pos (by rw [hSS]; exact hm2),
            List.find?_cons_of_pos _
              (by rw [Bool.and_eq_true]; exact ⟨hsv, decide_eq_true hSS.symm⟩)]
      · have hstep : impStep mult atr df (b, m) p = (b, m) := by
          simp [impStep, hsv, hm2]
        rw [hstep, ih b m hm]
        have hmp : netMove df p ≤ m := le_of_not_lt hm2
        by_cases hlt : m < specMaxNet df (l.filter (survives mult atr df))
        · have hSS : specMaxNet df ((p :: l).filter (survives mult atr df)) =
              specMaxNet df (l.filter (survives mult atr df)) := by
            rw [hS]; exact max_eq_right (le_trans hmp (le_of_lt hlt))
          have hne : ¬ (netMove df p =
              specMaxNet df ((p :: l).filter (survives mult atr df))) := by
            rw [hSS]; exact ne_of_lt (lt_of_le_of_lt hmp hlt)
          rw [if_pos hlt, if_pos (by rw [hSS]; exact hlt),
            List.find?_cons_of_neg _ (by simp [hne]), hSS]
        · have hSS : ¬ (m < specMaxNet df ((p :: l).filter (survives mult atr df))) := by
            rw [hS]
            rcases max_choice (netMove df p) (specMaxNet df (l.filter (survives mult atr df)))
              with hc | hc
            · rw [hc]; exact not_lt.mpr hmp
            · rw [hc]; exact hlt
          rw [if_neg hlt, if_neg hSS]
    · have hstep : impStep mult atr df (b, m) p = (b, m) := by
        simp [impStep, hsv]
      have hS : specMaxNet df ((p :: l).filter (survives mult atr df)) =
          specMaxNet df (l.filter (survives mult atr df)) := by
        rw [List.filter_cons_of_neg (by simpa using hsv)]
      rw [hstep, ih b m hm, hS, List.find?_cons_of_neg _ (by simp [hsv])]

/-- C5 (amended): provided the significance threshold
`atr_multiplier * ATR` is positive, `find_major_impulse` returns exactly
the specification's selection — the first surviving scan pair (ascending
`i`, then ascending `j`, with `3 ≤ j - i < 20`, net move at least the
threshold, pullback at most `0.3 *` net move) attaining the largest net
displacement, with strength `HIGH` above `2 * ATR` and `MEDIUM` otherwise —
and returns `None` exactly when no candidate survives. -/
theorem find_major_impulse_argmax_first (mult atr : ℚ) (df : List Candle)
    (hpos : 0 < mult * atr) :
    find_major_impulse mult df atr = specBestImpulse mult atr df ∧
    (find_major_impulse mult df atr = none ↔ specSurvivors mult atr df = []) := by
  have hchar := foldl_impStep_char mult atr df (scanPairs df.length) none 0 (le_refl 0)
  by_cases hpos2 :
    0 < specMaxNet df ((scanPairs df.length).filter (survives mult atr df))
  · rcases specMaxNet_attained df ((scanPairs df.length).filter (survives mult atr df))
      hpos2 with ⟨q, hq, hqv⟩
    have hfind : (scanPairs df.length).find? (fun p => survives mult atr df p &&
        decide (netMove df p =
          specMaxNet df ((scanPairs df.length).filter (survives mult atr df)))) = some q := by
      rw [find?_and_filter]
      exact hq
    have hfm : find_major_impulse mult df atr = some (mkImp df atr q) := by
      unfold find_major_impulse
      rw [hchar, if_pos hpos2, hfind]
    have hbest : specBestImpulse mult atr df = some (mkImp df atr q) := by
      unfold specBestImpulse specSurvivors
      rw [hq]
      rfl
    refine ⟨by rw [hfm, hbest], ?_, ?_⟩
    · intro h
      rw [hfm] at h
      exact absurd h (by simp)
    · intro h
      have hmem : q ∈ (scanPairs df.length).filter (survives mult atr df) :=
        List.mem_of_find?_eq_some hq
      unfold specSurvivors at h
      rw [h] at hmem
      cases hmem
  · have hfm : find_major_impulse mult df atr = none := by
      unfold find_major_impulse
      rw [hchar, if_neg hpos2]
    have hnil : specSurvivors mult atr df = [] := by
      rw [List.eq_nil_iff_forall_not_mem]
      intro q hq
      unfold specSurvivors at hq
      have hsv : survives mult atr df q = true := (List.mem_filter.mp hq).2
      have h1 : mult * atr ≤ netMove df q := survives_net mult atr df q hsv
      have h2 := le_specMaxNet df hq
      exact hpos2 (lt_of_lt_of_le (lt_of_lt_of_le hpos h1) h2)
    have hbest : specBestImpulse mult atr df = none := by
      unfold specBestImpulse
      rw [hnil]
      rfl
    exact ⟨by rw [hfm, hbest], by rw [hfm, hnil]; simp⟩

/-- C5 (counterexample to the unamended claim): on four identical candles
with ATR baseline `0`, the pair `(0, 3)` survives every filter of the
specification's scan — so the claimed first-encountered maximal candidate
exists — yet `find_major_impulse` returns `None`, because `max_move`
starts at `0` and the comparison is strict. -/
theorem find_major_impulse_zero_atr_counterexample :
    find_major_impulse (3 / 2) constDf 0 = none ∧
    specSurvivors (3 / 2) 0 constDf = [(0, 3)] ∧
    specBestImpulse (3 / 2) 0 constDf =
      some ⟨"BEARISH", 0, 3, "MEDIUM", "c0", "c3"⟩ := by
  refine ⟨?_, ?_, ?_⟩
  · with_unfolding_all decide
  · with_unfolding_all decide
  · with_unfolding_all decide

/-- Witness for `find_major_impulse_argmax_first` on `dfW` with `atr = 1`. -/
theorem find_major_impulse_argmax_first_witness :
    find_major_impulse (3 / 2) dfW 1 = specBestImpulse (3 / 2) 1 dfW ∧
    (find_major_impulse (3 / 2) dfW 1 = none ↔ specSurvivors (3 / 2) 1 dfW = []) :=
  find_major_impulse_argmax_first (3 / 2) 1 dfW (by norm_num)

/-- Any impulse returned by `find_major_impulse` ends at a valid index. -/
lemma find_major_impulse_end_lt (mult atr : ℚ) (df : List Candle) (imp : Impulse)
    (h : find_major_impulse mult df atr = some imp) : imp.end_idx < df.length := by
  unfold find_major_impulse at h
  rcases foldl_impStep_cases mult atr df (scanPairs df.length) (none, 0) with
    heq | ⟨p, hmem, -, heq⟩
  · rw [heq] at h
    simp at h
  · rw [heq] at h
    have himp : imp = mkImp df atr p := by simpa using h.symm
    subst himp
    simpa [mkImp] using (scanPairs_mem hmem).2.2

/-- C2 (amended): when `extract_zones` has found a dominant impulse and a
candidate origin zone, the zone is returned if and only if the close of
the impulse's end candle lies at least `2 *` the candidate zone's range
away from the candidate zone's midpoint; otherwise the result is empty. -/
theorem extract_zones_validation_end_candle (df : List Candle)
    (symbol fetch_date timeframe : String) (imp : Impulse) (oz : OriginZone)
    (h20 : 20 ≤ df.length)
    (himp : find_major_impulse (3 / 2) df (calculate_atr df) = some imp)
    (hoz : find_origin_zone 2 6 df imp.start_idx = some oz) :
    extract_zones df symbol fetch_date timeframe =
      if (oz.zone_high - oz.zone_low) * 2 ≤
          |cl df imp.end_idx - (oz.zone_low + oz.zone_high) / 2| then
        [mkZoneRecord symbol fetch_date timeframe imp oz]
      else [] := by
  have hend := find_major_impulse_end_lt (3 / 2) (calculate_atr df) df imp himp
  have hlen : ¬ df.length < 20 := by omega
  have hval : validate_zone df oz imp =
      decide ((oz.zone_high - oz.zone_low) * 2 ≤
        |cl df imp.end_idx - (oz.zone_low + oz.zone_high) / 2|) := by
    unfold validate_zone
    rw [if_neg (by omega)]
    by_cases hc : |cl df imp.end_idx - (oz.zone_low + oz.zone_high) / 2| <
        (oz.zone_high - oz.zone_low) * 2
    · rw [if_pos hc]
      exact (decide_eq_false (not_le.mpr hc)).symm
    · rw [if_neg hc]
      exact (decide_eq_true (le_of_not_lt hc)).symm
  simp only [extract_zones, hlen, if_false, himp, hoz, hval]
  by_cases h : (oz.zone_high - oz.zone_low) * 2 ≤
      |cl df imp.end_idx - (oz.zone_low + oz.zone_high) / 2|
  · simp [h]
  · simp [h]

/-- C2 (counterexample to the claim as stated): on `dfC2` the pipeline
finds the impulse ending at index 6 and the origin zone `[103, 105]`; the
candle immediately following the impulse end closes back at the zone
midpoint (distance `0 < 2 *` range), so the claim as stated demands an
empty result — yet `extract_zones` returns the zone, because the code
validates against the end candle itself (`df.iloc[impulse_end_idx]`), not
the candle following it. -/
theorem extract_zones_following_candle_counterexample :
    find_major_impulse (3 / 2) dfC2 (calculate_atr dfC2) = some impC2 ∧
    find_origin_zone 2 6 dfC2 impC2.start_idx = some ozC2 ∧
    |cl dfC2 (impC2.end_idx + 1) - (ozC2.zone_low + ozC2.zone_high) / 2| <
      (ozC2.zone_high - ozC2.zone_low) * 2 ∧
    extract_zones dfC2 "SYM" "2026-01-28" "15minute" =
      [mkZoneRecord "SYM" "2026-01-28" "15minute" impC2 ozC2] := by
  refine ⟨?_, ?_, ?_, ?_⟩
  · with_unfolding_all decide
  · with_unfolding_all decide
  · with_unfolding_all decide
  · with_unfolding_all decide

/-- Witness for `extract_zones_validation_end_candle` on `dfC2`. -/
theorem extract_zones_validation_end_candle_witness :
    extract_zones dfC2 "SYM" "2026-01-28" "15minute" =
      if (ozC2.zone_high - ozC2.zone_low) * 2 ≤
          |cl dfC2 impC2.end_idx - (ozC2.zone_low + ozC2.zone_high) / 2| then
        [mkZoneRecord "SYM" "2026-01-28" "15minute" impC2 ozC2]
      else [] :=
  extract_zones_validation_end_candle dfC2 "SYM" "2026-01-28" "15minute" impC2 ozC2
    (by decide) (by with_unfolding_all decide) (by with_unfolding_all decide)

/-- C8: the absence of a signal — fewer than 20 candles, no qualifying
impulse, no qualifying origin window, or a candidate zone failing the
post-impulse validation — yields the empty list from `extract_zones`
rather than an error (the embedding is a total function; no exceptional
outcome exists). -/
theorem extract_zones_empty_on_no_signal :
    (∀ df s f t, df.length < 20 → extract_zones df s f t = []) ∧
    (∀ df s f t, find_major_impulse (3 / 2) df (calculate_atr df) = none →
      extract_zones df s f t = []) ∧
    (∀ df s f t imp, find_major_impulse (3 / 2) df (calculate_atr df) = some imp →
      find_origin_zone 2 6 df imp.start_idx = none → extract_zones df s f t = []) ∧
    (∀ df s f t imp oz, find_major_impulse (3 / 2) df (calculate_atr df) = some imp →
      find_origin_zone 2 6 df imp.start_idx = some oz →
      validate_zone df oz imp = false → extract_zones df s f t = []) := by
  refine ⟨?_, ?_, ?_, ?_⟩
  · intro df s f t h
    simp [extract_zones, h]
  · intro df s f t h
    by_cases hl : df.length < 20
    · simp [extract_zones, hl]
    · simp [extract_zones, hl, h]
  · intro df s f t imp h1 h2
    by_cases hl : df.length < 20
    · simp [extract_zones, hl]
    · simp [extract_zones, hl, h1, h2]
  · intro df s f t imp oz h1 h2 h3
    by_cases hl : df.length < 20
    · simp [extract_zones, hl]
    · simp [extract_zones, hl, h1, h2, h3]

/-- Witness for `extract_zones_empty_on_no_signal`: an empty series, 20
flat candles (no impulse), an impulse starting at index 0 (no origin
window), and a wide origin range (validation failure). -/
theorem extract_zones_empty_on_no_signal_witness :
    extract_zones [] "s" "f" "t" = [] ∧
    extract_zones flatDf "s" "f" "t" = [] ∧
    extract_zones dfC8c "s" "f" "t" = [] ∧
    extract_zones dfC8d "s" "f" "t" = [] :=
  ⟨extract_zones_empty_on_no_signal.1 [] "s" "f" "t" (by decide),
   extract_zones_empty_on_no_signal.2.1 flatDf "s" "f" "t" (by with_unfolding_all decide),
   extract_zones_empty_on_no_signal.2.2.1 dfC8c "s" "f" "t" impC8c
     (by with_unfolding_all decide) (by with_unfolding_all decide),
   extract_zones_empty_on_no_signal.2.2.2 dfC8d "s" "f" "t" impC8d ozC8d
     (by with_unfolding_all decide) (by with_unfolding_all decide)
     (by with_unfolding_all decide)⟩
